import Mathlib

/-!
Shallow embedding of the `gramjs-sqlite-session` persistence subsystem.

The repository stores one Telegram session per named row of a SQLite table
(`DatabaseManager`, `src/utils/database.ts`), layered under a session
controller (`SqliteSession`, two textually near-identical class definitions)
that extends an in-memory entity cache (`ExtendedMemorySession`), plus a
file export/import codec (`FileExportManager`) and administrative registry
functions (`SessionManager`).

Modelling choices:
* Machine integers of the source (JS numbers used as ids, ports, dc ids)
  become `Int`; byte blobs (`Buffer`) become `List Nat`; timestamps become
  `Nat` and `CURRENT_TIMESTAMP` is passed in as an explicit `now` argument.
* JavaScript truthiness on these fields is explicit: `0`, `""`, `null` and
  `undefined` are falsy; `x || d` is modelled by `jsOrNum` / `jsOrStr`, and
  `x || null` by `numOrNull` / `strOrNull`.
* The `entities` TEXT column holds the result of `JSON.stringify` of the
  entity map, or an arbitrary (possibly malformed) string; it is modelled by
  `EntitiesBlob`: `json entries` is a well-formed serialized map and
  `badJson s` is a string on which `JSON.parse` throws.
* `better-sqlite3` database handles are modelled by a `dbOpen` flag on the
  controller; the table itself is an explicit `Store` value threaded through
  the operations that touch it.
* Entity values are opaque; they are modelled by `Nat`. For the
  `ExtendedMemorySession.getEntityId` reverse lookup, which compares with
  JavaScript `===` (reference identity), the `Nat` is read as a heap
  reference and structural content is an extra function `Nat → Nat`.
-/

namespace GramjsSqlite

/-- Opaque entity value (for persistence claims: the structural value that
JSON round-trips; for the identity-lookup claim: an object reference). -/
abbrev Ent := Nat

/-- An entity map as kept by a JavaScript `Map<number, any>`: association
list in insertion order, unique keys. -/
abbrev EntMap := List (Nat × Ent)

/-- JavaScript `Map.prototype.set`: replaces the value in place if the key
is present, appends otherwise. -/
def mapSet (m : EntMap) (k : Nat) (v : Ent) : EntMap :=
  if m.any (fun p => p.1 == k) then
    m.map (fun p => if p.1 == k then (k, v) else p)
  else
    m ++ [(k, v)]

/-- JavaScript `x || d` for an optional number: `null`/`undefined` and `0`
are falsy. -/
def jsOrNum (x : Option Int) (d : Int) : Int :=
  match x with
  | some n => if n = 0 then d else n
  | none => d

/-- JavaScript `x || d` for an optional string: `null`/`undefined` and `""`
are falsy. -/
def jsOrStr (x : Option String) (d : String) : String :=
  match x with
  | some s => if s = "" then d else s
  | none => d

/-- JavaScript `x || null` for an optional number. -/
def numOrNull (x : Option Int) : Option Int :=
  match x with
  | some n => if n = 0 then none else some n
  | none => none

/-- JavaScript `x || null` for an optional string. -/
def strOrNull (x : Option String) : Option String :=
  match x with
  | some s => if s = "" then none else some s
  | none => none

/-- Value of the `entities` TEXT column: either `JSON.stringify` of an
entity map, or a string on which `JSON.parse` throws. -/
inductive EntitiesBlob where
  | json (entries : EntMap)
  | badJson (s : String)
deriving DecidableEq

/-- One row of the `telegram_sessions` table (the autoincrement `id` is not
modelled; row position in the store list reflects insertion order). -/
structure Row where
  name : String
  auth_key : Option (List Nat) := none
  dc_id : Option Int := none
  server_address : Option String := none
  port : Option Int := none
  entities : Option EntitiesBlob := none
  created_at : Nat
  updated_at : Nat
deriving DecidableEq

/-- The `telegram_sessions` table of one store file, rows in insertion
order. -/
structure Store where
  rows : List Row
deriving DecidableEq

def Store.empty : Store := ⟨[]⟩

/-- The `data` argument of `DatabaseManager.saveSessionData`. -/
structure SaveData where
  authKey : Option (List Nat)
  dcId : Option Int
  serverAddress : Option String
  port : Option Int
  entities : Option EntitiesBlob
deriving DecidableEq

namespace DatabaseManager

/-- `SELECT * FROM telegram_sessions WHERE name = ?` (first match; `name`
is UNIQUE so at most one row matches). -/
def loadSessionData (st : Store) (sessionName : String) : Option Row :=
  st.rows.find? (fun r => r.name == sessionName)

/-- `INSERT OR REPLACE INTO telegram_sessions (name, auth_key, dc_id,
server_address, port, entities, updated_at) VALUES (?, ?, ?, ?, ?, ?,
CURRENT_TIMESTAMP)`. SQLite `INSERT OR REPLACE` deletes any row conflicting
on the UNIQUE `name` and inserts a fresh row; `created_at` is not in the
column list, so the fresh row takes its column DEFAULT
`CURRENT_TIMESTAMP`, i.e. `now` — the old row's `created_at` is lost. -/
def saveSessionData (st : Store) (sessionName : String) (data : SaveData)
    (now : Nat) : Store :=
  ⟨st.rows.filter (fun r => !(r.name == sessionName)) ++
    [{ name := sessionName
       auth_key := data.authKey
       dc_id := data.dcId
       server_address := data.serverAddress
       port := data.port
       entities := data.entities
       created_at := now
       updated_at := now }]⟩

/-- `DELETE FROM telegram_sessions WHERE name = ?`. -/
def deleteSessionData (st : Store) (sessionName : String) : Store :=
  ⟨st.rows.filter (fun r => !(r.name == sessionName))⟩

/-- One element of the `listSessions` result. -/
structure SessionListing where
  name : String
  created_at : Nat
  updated_at : Nat
deriving DecidableEq

/-- Insertion step of sorting by `created_at` descending. -/
def insertByCreatedDesc (x : SessionListing) :
    List SessionListing → List SessionListing
  | [] => [x]
  | y :: ys =>
      if y.created_at ≤ x.created_at then x :: y :: ys
      else y :: insertByCreatedDesc x ys

/-- `ORDER BY created_at DESC` as an insertion sort. -/
def sortByCreatedDesc : List SessionListing → List SessionListing
  | [] => []
  | x :: xs => insertByCreatedDesc x (sortByCreatedDesc xs)

/-- `SELECT name, created_at, updated_at FROM telegram_sessions ORDER BY
created_at DESC`. -/
def listSessions (st : Store) : List SessionListing :=
  sortByCreatedDesc
    (st.rows.map fun r => ⟨r.name, r.created_at, r.updated_at⟩)

end DatabaseManager

/-- Errors raised by the codec and its callers: missing file, a
`JSON.parse` failure, or the `Invalid session file: missing dc_id`
validation error. -/
inductive SessionError where
  | notFound
  | parseError
  | formatError
deriving DecidableEq

/-- The parsed JSON document of a `.session` file as far as the code
inspects it. `dc_id = none` models a document whose `dc_id` field is
missing or not a number (`typeof data.dc_id !== 'number'`); the other
fields are trusted as-is and may be absent. The hex `auth_key` string is
modelled by its decoded bytes (the empty string is `some []`). -/
structure ExportedDoc where
  dc_id : Option Int := none
  server_address : Option String := none
  port : Option Int := none
  auth_key : Option (List Nat) := none
  entities : EntMap := []
  exported_at : Nat := 0
deriving DecidableEq

/-- What the codec finds at a file path: nothing, an unparsable file, or a
parsed JSON document. -/
inductive FileContent where
  | missing
  | notJson (s : String)
  | doc (d : ExportedDoc)
deriving DecidableEq

namespace FileExportManager

/-- `FileExportManager.importFromFile`: throws if the path does not exist,
if `JSON.parse` fails, or if the parsed document lacks a numeric `dc_id`;
otherwise returns the document unchanged. -/
def importFromFile (file : FileContent) : Except SessionError ExportedDoc :=
  match file with
  | .missing => .error .notFound
  | .notJson _ => .error .parseError
  | .doc d =>
      if d.dc_id.isNone then .error .formatError
      else .ok d

end FileExportManager

namespace ExtendedMemorySession

/-- `ExtendedMemorySession.getEntityId`: scans `_customEntities` in
insertion order and returns the first key whose stored value is
reference-identical (`===`) to the argument. -/
def getEntityId (customEntities : EntMap) (entity : Ent) : Option Nat :=
  (customEntities.find? (fun p => p.2 == entity)).map Prod.fst

end ExtendedMemorySession

namespace SessionManager

/-- `SessionManager.deleteSession`: opens the store, ensures the table,
deletes the row. -/
def deleteSession (st : Store) (sessionName : String) : Store :=
  DatabaseManager.deleteSessionData st sessionName

/-- `SessionManager.sessionExists`: scans `listSessions` for the name. -/
def sessionExists (st : Store) (sessionName : String) : Bool :=
  (DatabaseManager.listSessions st).any (fun s => s.name == sessionName)

/-- Result of `SessionManager.getSessionInfo`. -/
structure RegistryInfo where
  exists' : Bool
  created_at : Option Nat := none
  updated_at : Option Nat := none
deriving DecidableEq

/-- `SessionManager.getSessionInfo`: first `listSessions` entry with the
name, or `{ exists: false }`. -/
def getSessionInfo (st : Store) (sessionName : String) : RegistryInfo :=
  match (DatabaseManager.listSessions st).find?
      (fun s => s.name == sessionName) with
  | some s => ⟨true, some s.created_at, some s.updated_at⟩
  | none => ⟨false, none, none⟩

end SessionManager

/-- The `sessionData` field of `SqliteSession`: the in-memory Session
Record. An `AuthKey` credential object is modelled by its raw bytes. -/
structure SessionData where
  authKey : Option (List Nat) := none
  dcId : Option Int := none
  serverAddress : Option String := none
  port : Option Int := none
deriving DecidableEq

/-- The private instance state of a `SqliteSession` controller (both class
definitions declare the identical fields). The `better-sqlite3` handle
`db` is modelled by the flag `dbOpen`; `entitiesMap` is the inherited
`ExtendedMemorySession._customEntities`. -/
structure SessionState where
  databasePath : String
  sessionName : String
  dbOpen : Bool := false
  isLoaded : Bool := false
  sessionData : SessionData := {}
  entitiesMap : EntMap := []
deriving DecidableEq

/-- Result of `SqliteSession.getSessionInfo` (instance method). -/
structure SessionInfo where
  name : String
  dcId : Int
  hasAuth : Bool
  entitiesCount : Nat
deriving DecidableEq

/-! ### The `SqliteSession` class of the first (documented) definition. -/

namespace V0

/-- The constructor: records the paths, performs no I/O. -/
def mkSession (databasePath : String) (sessionName : String) : SessionState :=
  { databasePath := databasePath, sessionName := sessionName }

/-- `SqliteSession.load`. No-op when already loaded. Otherwise opens the
handle (`init`) and fetches the row by name. A found row populates: the
auth key only when the stored blob is non-null with positive length; the
three data-center fields only when `row.dc_id` is truthy (non-null and
nonzero), defaulting `server_address` and `port` by `||`; the entity cache
from parsed `entities` when that column is truthy, silently skipping a
blob `JSON.parse` rejects (a falsy empty-string blob is skipped before the
parse, with the same outcome, so it is folded into `badJson`). The loop
calls the overridden `setEntity`, whose `_saveToDB` does nothing here
because `isLoaded` is still false, so only the map is updated. -/
def load (s : SessionState) (st : Store) : SessionState :=
  if s.isLoaded then s
  else
    let s := { s with dbOpen := true }
    match DatabaseManager.loadSessionData st s.sessionName with
    | none => { s with isLoaded := true }
    | some row =>
        let s :=
          match row.auth_key with
          | some bytes =>
              if bytes.length > 0 then
                { s with sessionData :=
                    { s.sessionData with authKey := some bytes } }
              else s
          | none => s
        let s :=
          match row.dc_id with
          | some d =>
              if d ≠ 0 then
                { s with sessionData :=
                    { s.sessionData with
                        dcId := some d
                        serverAddress := some (jsOrStr row.server_address "")
                        port := some (jsOrNum row.port 443) } }
              else s
          | none => s
        let s :=
          match row.entities with
          | some (.json entries) =>
              { s with entitiesMap :=
                  entries.foldl (fun (m : EntMap) (p : Nat × Ent) =>
                    mapSet m p.1 p.2) s.entitiesMap }
          | some (.badJson _) => s
          | none => s
        { s with isLoaded := true }

/-- `SqliteSession.save`: opens the handle, extracts the raw key bytes
(`authKey?.getKey?.() || null`; an empty byte buffer is an object, hence
truthy, and is stored as-is), serializes a non-empty entity map (`size >
0`) or stores null, null-izes falsy `dcId`/`serverAddress`/`port`, upserts
the row, and returns the session name. -/
def save (s : SessionState) (st : Store) (now : Nat) :
    SessionState × Store × String :=
  let s := { s with dbOpen := true }
  let entities : Option EntitiesBlob :=
    if s.entitiesMap.length > 0 then some (.json s.entitiesMap) else none
  let st := DatabaseManager.saveSessionData st s.sessionName
    { authKey := s.sessionData.authKey
      dcId := numOrNull s.sessionData.dcId
      serverAddress := strOrNull s.sessionData.serverAddress
      port := numOrNull s.sessionData.port
      entities := entities } now
  (s, st, s.sessionName)

/-- `SqliteSession._saveToDB`: write-through only when already loaded. -/
def _saveToDB (s : SessionState) (st : Store) (now : Nat) :
    SessionState × Store :=
  if s.isLoaded then
    let r := save s st now
    (r.1, r.2.1)
  else (s, st)

/-- `SqliteSession.setDC`. -/
def setDC (s : SessionState) (dcId : Int) (serverAddress : String)
    (port : Int) (st : Store) (now : Nat) : SessionState × Store :=
  let s := { s with sessionData :=
      { s.sessionData with
          dcId := some dcId
          serverAddress := some serverAddress
          port := some port } }
  _saveToDB s st now

/-- The `authKey` read accessor. -/
def authKeyGet (s : SessionState) : Option (List Nat) :=
  s.sessionData.authKey

/-- The `authKey` write accessor. -/
def authKeySet (s : SessionState) (value : Option (List Nat)) (st : Store)
    (now : Nat) : SessionState × Store :=
  let s := { s with sessionData := { s.sessionData with authKey := value } }
  _saveToDB s st now

/-- `SqliteSession.setEntity`: `super.setEntity` then `_saveToDB`. -/
def setEntity (s : SessionState) (id : Nat) (entity : Ent) (st : Store)
    (now : Nat) : SessionState × Store :=
  let s := { s with entitiesMap := mapSet s.entitiesMap id entity }
  _saveToDB s st now

/-- `SqliteSession.exportToFile`: builds the exported document (falsy
fields defaulted by `||`, auth key hex-encoded when present — an empty key
buffer yields the empty hex string, i.e. `some []`) and returns the path
written. -/
def exportToFile (s : SessionState) (filePath : String) (now : Nat) :
    ExportedDoc × String :=
  ({ dc_id := some (jsOrNum s.sessionData.dcId 0)
     server_address := some (jsOrStr s.sessionData.serverAddress "")
     port := some (jsOrNum s.sessionData.port 443)
     auth_key := s.sessionData.authKey
     entities := s.entitiesMap
     exported_at := now }, filePath)

/-- `SqliteSession.importFromFile`: parse and validate via the codec (a
throw there propagates with `this` and the store untouched), then set the
auth key when the hex string is truthy (non-empty), overwrite the three
data-center fields as-is, clear and repopulate the entity cache via
`this.setEntity` (each call write-throughs when loaded), and finally
`save`. -/
def importFromFile (s : SessionState) (file : FileContent) (st : Store)
    (now : Nat) : Except SessionError Unit × SessionState × Store :=
  match FileExportManager.importFromFile file with
  | .error e => (.error e, s, st)
  | .ok data =>
      let s :=
        match data.auth_key with
        | some bytes =>
            if bytes ≠ [] then
              { s with sessionData :=
                  { s.sessionData with authKey := some bytes } }
            else s
        | none => s
      let s := { s with sessionData :=
          { s.sessionData with
              dcId := data.dc_id
              serverAddress := data.server_address
              port := data.port } }
      let s := { s with entitiesMap := [] }
      let r := data.entities.foldl
        (fun (p : SessionState × Store) kv => setEntity p.1 kv.1 kv.2 p.2 now)
        (s, st)
      let r2 := save r.1 r.2 now
      (.ok (), r2.1, r2.2.1)

/-- `SqliteSession.delete`: registry delete, then back to Unloaded. -/
def delete (s : SessionState) (st : Store) : SessionState × Store :=
  ({ s with isLoaded := false },
   SessionManager.deleteSession st s.sessionName)

/-- `SqliteSession.close`: releases the handle when open. -/
def close (s : SessionState) : SessionState :=
  if s.dbOpen then { s with dbOpen := false } else s

/-- `SqliteSession.getSessionInfo` (instance): in-memory snapshot. -/
def getSessionInfo (s : SessionState) : SessionInfo :=
  { name := s.sessionName
    dcId := jsOrNum s.sessionData.dcId 0
    hasAuth := s.sessionData.authKey.isSome
    entitiesCount := s.entitiesMap.length }

/-- `static listSessions = DatabaseManager.listSessions`. -/
def listSessions : Store → List DatabaseManager.SessionListing :=
  DatabaseManager.listSessions

/-- `static deleteSession = SessionManager.deleteSession`. -/
def deleteSession : Store → String → Store :=
  SessionManager.deleteSession

/-- `static sessionExists = SessionManager.sessionExists`. -/
def sessionExists : Store → String → Bool :=
  SessionManager.sessionExists

/-- `static getSessionInfo = SessionManager.getSessionInfo` (named apart
from the instance method, which shadows it in TypeScript scope rules). -/
def getSessionInfoStatic : Store → String → SessionManager.RegistryInfo :=
  SessionManager.getSessionInfo

end V0

/-! ### The `SqliteSession` class of the second (undocumented) definition.

The second source file declares the same private fields and, apart from
comments and a return-type annotation on the `authKey` read accessor,
repeats every member verbatim, so the embedded operations below read the
same as the `V0` ones. -/

namespace V1

/-- The constructor of the second definition. -/
def mkSession (databasePath : String) (sessionName : String) : SessionState :=
  { databasePath := databasePath, sessionName := sessionName }

/-- `load` of the second definition. -/
def load (s : SessionState) (st : Store) : SessionState :=
  if s.isLoaded then s
  else
    let s := { s with dbOpen := true }
    match DatabaseManager.loadSessionData st s.sessionName with
    | none => { s with isLoaded := true }
    | some row =>
        let s :=
          match row.auth_key with
          | some bytes =>
              if bytes.length > 0 then
                { s with sessionData :=
                    { s.sessionData with authKey := some bytes } }
              else s
          | none => s
        let s :=
          match row.dc_id with
          | some d =>
              if d ≠ 0 then
                { s with sessionData :=
                    { s.sessionData with
                        dcId := some d
                        serverAddress := some (jsOrStr row.server_address "")
                        port := some (jsOrNum row.port 443) } }
              else s
          | none => s
        let s :=
          match row.entities with
          | some (.json entries) =>
              { s with entitiesMap :=
                  entries.foldl (fun (m : EntMap) (p : Nat × Ent) =>
                    mapSet m p.1 p.2) s.entitiesMap }
          | some (.badJson _) => s
          | none => s
        { s with isLoaded := true }

/-- `save` of the second definition. -/
def save (s : SessionState) (st : Store) (now : Nat) :
    SessionState × Store × String :=
  let s := { s with dbOpen := true }
  let entities : Option EntitiesBlob :=
    if s.entitiesMap.length > 0 then some (.json s.entitiesMap) else none
  let st := DatabaseManager.saveSessionData st s.sessionName
    { authKey := s.sessionData.authKey
      dcId := numOrNull s.sessionData.dcId
      serverAddress := strOrNull s.sessionData.serverAddress
      port := numOrNull s.sessionData.port
      entities := entities } now
  (s, st, s.sessionName)

/-- `_saveToDB` of the second definition. -/
def _saveToDB (s : SessionState) (st : Store) (now : Nat) :
    SessionState × Store :=
  if s.isLoaded then
    let r := save s st now
    (r.1, r.2.1)
  else (s, st)

/-- `setDC` of the second definition. -/
def setDC (s : SessionState) (dcId : Int) (serverAddress : String)
    (port : Int) (st : Store) (now : Nat) : SessionState × Store :=
  let s := { s with sessionData :=
      { s.sessionData with
          dcId := some dcId
          serverAddress := some serverAddress
          port := some port } }
  _saveToDB s st now

/-- The `authKey` read accessor of the second definition (the only
textual difference from the first: an explicit `: any` return type). -/
def authKeyGet (s : SessionState) : Option (List Nat) :=
  s.sessionData.authKey

/-- The `authKey` write accessor of the second definition. -/
def authKeySet (s : SessionState) (value : Option (List Nat)) (st : Store)
    (now : Nat) : SessionState × Store :=
  let s := { s with sessionData := { s.sessionData with authKey := value } }
  _saveToDB s st now

/-- `setEntity` of the second definition. -/
def setEntity (s : SessionState) (id : Nat) (entity : Ent) (st : Store)
    (now : Nat) : SessionState × Store :=
  let s := { s with entitiesMap := mapSet s.entitiesMap id entity }
  _saveToDB s st now

/-- `exportToFile` of the second definition. -/
def exportToFile (s : SessionState) (filePath : String) (now : Nat) :
    ExportedDoc × String :=
  ({ dc_id := some (jsOrNum s.sessionData.dcId 0)
     server_address := some (jsOrStr s.sessionData.serverAddress "")
     port := some (jsOrNum s.sessionData.port 443)
     auth_key := s.sessionData.authKey
     entities := s.entitiesMap
     exported_at := now }, filePath)

/-- `importFromFile` of the second definition. -/
def importFromFile (s : SessionState) (file : FileContent) (st : Store)
    (now : Nat) : Except SessionError Unit × SessionState × Store :=
  match FileExportManager.importFromFile file with
  | .error e => (.error e, s, st)
  | .ok data =>
      let s :=
        match data.auth_key with
        | some bytes =>
            if bytes ≠ [] then
              { s with sessionData :=
                  { s.sessionData with authKey := some bytes } }
            else s
        | none => s
      let s := { s with sessionData :=
          { s.sessionData with
              dcId := data.dc_id
              serverAddress := data.server_address
              port := data.port } }
      let s := { s with entitiesMap := [] }
      let r := data.entities.foldl
        (fun (p : SessionState × Store) kv => setEntity p.1 kv.1 kv.2 p.2 now)
        (s, st)
      let r2 := save r.1 r.2 now
      (.ok (), r2.1, r2.2.1)

/-- `delete` of the second definition. -/
def delete (s : SessionState) (st : Store) : SessionState × Store :=
  ({ s with isLoaded := false },
   SessionManager.deleteSession st s.sessionName)

/-- `close` of the second definition. -/
def close (s : SessionState) : SessionState :=
  if s.dbOpen then { s with dbOpen := false } else s

/-- `getSessionInfo` (instance) of the second definition. -/
def getSessionInfo (s : SessionState) : SessionInfo :=
  { name := s.sessionName
    dcId := jsOrNum s.sessionData.dcId 0
    hasAuth := s.sessionData.authKey.isSome
    entitiesCount := s.entitiesMap.length }

/-- `static listSessions` of the second definition. -/
def listSessions : Store → List DatabaseManager.SessionListing :=
  DatabaseManager.listSessions

/-- `static deleteSession` of the second definition. -/
def deleteSession : Store → String → Store :=
  SessionManager.deleteSession

/-- `static sessionExists` of the second definition. -/
def sessionExists : Store → String → Bool :=
  SessionManager.sessionExists

/-- `static getSessionInfo` of the second definition. -/
def getSessionInfoStatic : Store → String → SessionManager.RegistryInfo :=
  SessionManager.getSessionInfo

end V1

/-- The in-memory update performed by `setDC` before its `_saveToDB`. -/
def recordDC (s : SessionState) (dcId : Int) (serverAddress : String)
    (port : Int) : SessionState :=
  { s with sessionData :=
      { s.sessionData with
          dcId := some dcId
          serverAddress := some serverAddress
          port := some port } }

/-- The in-memory update performed by the `authKey` setter before its
`_saveToDB`. -/
def recordAuthKey (s : SessionState) (value : Option (List Nat)) :
    SessionState :=
  { s with sessionData := { s.sessionData with authKey := value } }

/-- The in-memory update performed by `setEntity` before its
`_saveToDB`. -/
def recordEntity (s : SessionState) (id : Nat) (entity : Ent) :
    SessionState :=
  { s with entitiesMap := mapSet s.entitiesMap id entity }

/-! ### Helper lemmas -/

/-- Rows surviving the `INSERT OR REPLACE` deletion filter never match the
replaced name. -/
theorem find?_name_filter_ne (l : List Row) (n : String) :
    (l.filter (fun r => !(r.name == n))).find? (fun r => r.name == n) =
      none := by
  induction l with
  | nil => rfl
  | cons r l ih =>
      by_cases h : r.name = n
      · simp [List.filter_cons, h, ih]
      · simp [List.filter_cons, h, List.find?_cons, ih]

/-- Reading back the row just written by
`DatabaseManager.saveSessionData`. -/
theorem loadSessionData_saveSessionData (st : Store) (n : String)
    (d : SaveData) (now : Nat) :
    DatabaseManager.loadSessionData
        (DatabaseManager.saveSessionData st n d now) n =
      some { name := n, auth_key := d.authKey, dc_id := d.dcId,
             server_address := d.serverAddress, port := d.port,
             entities := d.entities, created_at := now,
             updated_at := now } := by
  unfold DatabaseManager.loadSessionData DatabaseManager.saveSessionData
  rw [List.find?_append, find?_name_filter_ne]
  simp [List.find?]

/-- Folding `Map.set` over entries with unique keys, none of which occur
in the accumulator, appends the entries. -/
theorem foldl_mapSet_append (l acc : EntMap)
    (hd : (l.map Prod.fst).Nodup)
    (hdisj : ∀ k ∈ l.map Prod.fst, k ∉ acc.map Prod.fst) :
    l.foldl (fun (m : EntMap) (p : Nat × Ent) => mapSet m p.1 p.2) acc =
      acc ++ l := by
  induction l generalizing acc with
  | nil => simp
  | cons p l ih =>
      have hkacc : p.1 ∉ acc.map Prod.fst := hdisj p.1 (by simp)
      have hany : acc.any (fun q => q.1 == p.1) = false := by
        simp only [List.any_eq_false, beq_iff_eq]
        intro q hq hqe
        exact hkacc (hqe ▸ List.mem_map_of_mem Prod.fst hq)
      have hstep :
          mapSet acc p.1 p.2 = acc ++ [(p.1, p.2)] := by
        simp [mapSet, hany]
      simp only [List.foldl_cons, hstep]
      rw [ih (acc ++ [(p.1, p.2)])]
      · simp
      · exact (List.nodup_cons.mp (by simpa using hd)).2
      · intro k hk
        simp only [List.map_append, List.mem_append]
        rintro (h | h)
        · exact hdisj k (by simp [hk]) h
        · have : k = p.1 := by simpa using h
          exact (List.nodup_cons.mp (by simpa using hd)).1 (this ▸ hk)

/-- Folding `Map.set` over entries with unique keys into the empty map
reproduces the entries. -/
theorem foldl_mapSet_nil (l : EntMap) (hd : (l.map Prod.fst).Nodup) :
    l.foldl (fun (m : EntMap) (p : Nat × Ent) => mapSet m p.1 p.2) [] =
      l := by
  simpa using foldl_mapSet_append l [] hd (by simp)

/-- `numOrNull` never returns a stored zero. -/
theorem numOrNull_eq_some (x : Option Int) (dv : Int)
    (h : numOrNull x = some dv) : x = some dv ∧ dv ≠ 0 := by
  cases x with
  | none => simp [numOrNull] at h
  | some n =>
      by_cases hn : n = 0
      · simp [numOrNull, hn] at h
      · simp [numOrNull, hn] at h
        exact ⟨by simp [h], h ▸ hn⟩

/-- Normal form of `load` on a freshly constructed controller whose row
lookup succeeds. -/
theorem load_fresh (p n : String) (st : Store) (row : Row)
    (hfind : DatabaseManager.loadSessionData st n = some row) :
    V0.load (V0.mkSession p n) st =
      { databasePath := p
        sessionName := n
        dbOpen := true
        isLoaded := true
        sessionData :=
          { authKey :=
              match row.auth_key with
              | some bytes => if bytes.length > 0 then some bytes else none
              | none => none
            dcId :=
              match row.dc_id with
              | some d => if d ≠ 0 then some d else none
              | none => none
            serverAddress :=
              match row.dc_id with
              | some d =>
                  if d ≠ 0 then some (jsOrStr row.server_address "")
                  else none
              | none => none
            port :=
              match row.dc_id with
              | some d =>
                  if d ≠ 0 then some (jsOrNum row.port 443) else none
              | none => none }
        entitiesMap :=
          match row.entities with
          | some (.json entries) =>
              entries.foldl (fun (m : EntMap) (q : Nat × Ent) =>
                mapSet m q.1 q.2) []
          | some (.badJson _) => []
          | none => [] } := by
  obtain ⟨rn, ak, dc, sa, po, ents, ca, ua⟩ := row
  simp only [V0.load, V0.mkSession, hfind]
  cases ak with
  | none =>
      cases dc with
      | none =>
          cases ents with
          | none => rfl
          | some b => cases b <;> rfl
      | some d =>
          by_cases hd : d = 0 <;>
            · cases ents with
              | none => simp [hd]
              | some b => cases b <;> simp [hd]
  | some bytes =>
      by_cases hb : bytes.length > 0 <;>
        · cases dc with
          | none =>
              cases ents with
              | none => simp [hb]
              | some b => cases b <;> simp [hb]
          | some d =>
              by_cases hd : d = 0 <;>
                · cases ents with
                  | none => simp [hb, hd]
                  | some b => cases b <;> simp [hb, hd]

/-! ### Claims -/

/-- C1: the spec promises that re-saving an existing session name leaves
the row's `created_at` exactly as it was, but `saveSessionData` uses
`INSERT OR REPLACE` without listing `created_at`, so the conflicting row
is deleted and the fresh row takes `created_at = CURRENT_TIMESTAMP`:
saving the same name at times 1 and then 2 leaves `created_at = 2`, not
the original 1. -/
theorem C1_save_twice_resets_created_at :
    (DatabaseManager.loadSessionData
        (V0.save (V0.mkSession "p" "s") Store.empty 1).2.1 "s").map
      Row.created_at = some 1 ∧
    (DatabaseManager.loadSessionData
        (V0.save (V0.save (V0.mkSession "p" "s") Store.empty 1).1
          (V0.save (V0.mkSession "p" "s") Store.empty 1).2.1 2).2.1
        "s").map Row.created_at = some 2 := by
  decide

/-- C2 counterexample: a Session Record with a non-empty Entity Cache and
a present auth key whose `dcId` is `0` is not round-tripped — `save`
persists the falsy `dcId` as NULL and a fresh `load` leaves `dcId`
unset. -/
theorem C2_roundtrip_counterexample :
    ({ databasePath := "p", sessionName := "s",
       sessionData := { authKey := some [7], dcId := some 0 },
       entitiesMap := [(1, 5)] } : SessionState).entitiesMap ≠ [] ∧
    ({ databasePath := "p", sessionName := "s",
       sessionData := { authKey := some [7], dcId := some 0 },
       entitiesMap := [(1, 5)] } : SessionState).sessionData.authKey.isSome
      = true ∧
    (V0.load (V0.mkSession "p" "s")
        (V0.save
          { databasePath := "p", sessionName := "s",
            sessionData := { authKey := some [7], dcId := some 0 },
            entitiesMap := [(1, 5)] } Store.empty 1).2.1
      ).sessionData.dcId ≠
      ({ databasePath := "p", sessionName := "s",
         sessionData := { authKey := some [7], dcId := some 0 },
         entitiesMap := [(1, 5)] } : SessionState).sessionData.dcId := by
  decide

/-- C2 (amended): the round trip additionally needs every
truthiness-sensitive field to be truthy — auth key bytes non-empty,
`dcId` and `port` set and nonzero, `serverAddress` set — and the entity
ids to be unique (an invariant of the JavaScript `Map` they come from);
then `save()` followed by a fresh controller's `load()` reproduces
`dcId`, `serverAddress`, `port`, the entity-cache contents and the auth
key bytes. -/
theorem C2_roundtrip (s : SessionState) (st : Store) (now : Nat)
    (bs : List Nat) (d : Int) (a : String) (q : Int)
    (hak : s.sessionData.authKey = some bs) (hbs : bs ≠ [])
    (hdc : s.sessionData.dcId = some d) (hd : d ≠ 0)
    (hsa : s.sessionData.serverAddress = some a)
    (hpo : s.sessionData.port = some q) (hq : q ≠ 0)
    (hne : s.entitiesMap ≠ [])
    (hnd : (s.entitiesMap.map Prod.fst).Nodup) :
    (V0.load (V0.mkSession s.databasePath s.sessionName)
        (V0.save s st now).2.1).sessionData.dcId = some d ∧
    (V0.load (V0.mkSession s.databasePath s.sessionName)
        (V0.save s st now).2.1).sessionData.serverAddress = some a ∧
    (V0.load (V0.mkSession s.databasePath s.sessionName)
        (V0.save s st now).2.1).sessionData.port = some q ∧
    (V0.load (V0.mkSession s.databasePath s.sessionName)
        (V0.save s st now).2.1).entitiesMap = s.entitiesMap ∧
    (V0.load (V0.mkSession s.databasePath s.sessionName)
        (V0.save s st now).2.1).sessionData.authKey = some bs := by
  have hlen : 0 < bs.length := List.length_pos.mpr hbs
  have hmlen : 0 < s.entitiesMap.length := List.length_pos.mpr hne
  have hsave : (V0.save s st now).2.1 =
      DatabaseManager.saveSessionData st s.sessionName
        { authKey := some bs
          dcId := some d
          serverAddress := strOrNull (some a)
          port := some q
          entities := some (.json s.entitiesMap) } now := by
    simp [V0.save, hak, hdc, hsa, hpo, numOrNull, hd, hq, hmlen]
  rw [hsave,
    load_fresh s.databasePath s.sessionName _ _
      (loadSessionData_saveSessionData st s.sessionName _ now)]
  have haddr : jsOrStr (strOrNull (some a)) "" = a := by
    by_cases ha : a = "" <;> simp [jsOrStr, strOrNull, ha]
  simp [hd, hlen, hq, jsOrNum, haddr, foldl_mapSet_nil s.entitiesMap hnd]

/-- C2 witness: the amended round trip at a concrete record. -/
theorem C2_roundtrip_witness :
    (V0.load (V0.mkSession "p" "s")
        (V0.save
          { databasePath := "p", sessionName := "s",
            sessionData := { authKey := some [9], dcId := some 2,
                             serverAddress := some "a", port := some 443 },
            entitiesMap := [(1, 5)] } Store.empty 1).2.1
      ).sessionData.dcId = some 2 ∧
    (V0.load (V0.mkSession "p" "s")
        (V0.save
          { databasePath := "p", sessionName := "s",
            sessionData := { authKey := some [9], dcId := some 2,
                             serverAddress := some "a", port := some 443 },
            entitiesMap := [(1, 5)] } Store.empty 1).2.1
      ).sessionData.serverAddress = some "a" ∧
    (V0.load (V0.mkSession "p" "s")
        (V0.save
          { databasePath := "p", sessionName := "s",
            sessionData := { authKey := some [9], dcId := some 2,
                             serverAddress := some "a", port := some 443 },
            entitiesMap := [(1, 5)] } Store.empty 1).2.1
      ).sessionData.port = some 443 ∧
    (V0.load (V0.mkSession "p" "s")
        (V0.save
          { databasePath := "p", sessionName := "s",
            sessionData := { authKey := some [9], dcId := some 2,
                             serverAddress := some "a", port := some 443 },
            entitiesMap := [(1, 5)] } Store.empty 1).2.1
      ).entitiesMap = [(1, 5)] ∧
    (V0.load (V0.mkSession "p" "s")
        (V0.save
          { databasePath := "p", sessionName := "s",
            sessionData := { authKey := some [9], dcId := some 2,
                             serverAddress := some "a", port := some 443 },
            entitiesMap := [(1, 5)] } Store.empty 1).2.1
      ).sessionData.authKey = some [9] :=
  C2_roundtrip
    { databasePath := "p", sessionName := "s",
      sessionData := { authKey := some [9], dcId := some 2,
                       serverAddress := some "a", port := some 443 },
      entitiesMap := [(1, 5)] }
    Store.empty 1 [9] 2 "a" 443 rfl (by decide) rfl
    (by decide) rfl rfl (by decide) (by decide) (by decide)

/-- C3 counterexample: a stored row with the non-null `dc_id = 0` is
falsy in JavaScript, so `load` does not populate any data-center field
from it, contrary to the claim's "non-null" trigger. -/
theorem C3_dc_zero_counterexample :
    ({ name := "s", dc_id := some 0, server_address := some "x",
       port := some 80, created_at := 0, updated_at := 0 } : Row).dc_id ≠
      none ∧
    (V0.load (V0.mkSession "p" "s")
        ⟨[{ name := "s", dc_id := some 0, server_address := some "x",
            port := some 80, created_at := 0, updated_at := 0 }]⟩
      ).sessionData.dcId = none ∧
    (V0.load (V0.mkSession "p" "s")
        ⟨[{ name := "s", dc_id := some 0, server_address := some "x",
            port := some 80, created_at := 0, updated_at := 0 }]⟩
      ).sessionData.serverAddress = none ∧
    (V0.load (V0.mkSession "p" "s")
        ⟨[{ name := "s", dc_id := some 0, server_address := some "x",
            port := some 80, created_at := 0, updated_at := 0 }]⟩
      ).sessionData.port = none := by
  decide

/-- C3 (amended): the data-center fields are populated exactly when the
stored `dc_id` is non-null *and nonzero* (truthy); then `port` defaults
to 443 when the port column is null (or zero) and `serverAddress` to the
empty string when null; a null or zero `dc_id` leaves all three fields at
their empty defaults. -/
theorem C3_dc_fields (st : Store) (p n : String) (row : Row)
    (hfind : DatabaseManager.loadSessionData st n = some row) :
    (∀ d : Int, row.dc_id = some d → d ≠ 0 →
       (V0.load (V0.mkSession p n) st).sessionData.dcId = some d ∧
       (V0.load (V0.mkSession p n) st).sessionData.serverAddress =
         some (jsOrStr row.server_address "") ∧
       (V0.load (V0.mkSession p n) st).sessionData.port =
         some (jsOrNum row.port 443)) ∧
    (row.dc_id = none ∨ row.dc_id = some 0 →
       (V0.load (V0.mkSession p n) st).sessionData.dcId = none ∧
       (V0.load (V0.mkSession p n) st).sessionData.serverAddress = none ∧
       (V0.load (V0.mkSession p n) st).sessionData.port = none) := by
  rw [load_fresh p n st row hfind]
  constructor
  · intro d hd hdz
    simp [hd, hdz]
  · rintro (h | h) <;> simp [h]

/-- C3 witness: a row with `dc_id = 2` and null address and port columns
loads as `dcId = 2`, `serverAddress = ""`, `port = 443`. -/
theorem C3_dc_fields_witness :
    (V0.load (V0.mkSession "p" "s")
        ⟨[{ name := "s", dc_id := some 2, created_at := 0,
            updated_at := 0 }]⟩).sessionData.dcId = some 2 ∧
    (V0.load (V0.mkSession "p" "s")
        ⟨[{ name := "s", dc_id := some 2, created_at := 0,
            updated_at := 0 }]⟩).sessionData.serverAddress = some "" ∧
    (V0.load (V0.mkSession "p" "s")
        ⟨[{ name := "s", dc_id := some 2, created_at := 0,
            updated_at := 0 }]⟩).sessionData.port = some 443 := by
  exact (C3_dc_fields
    ⟨[{ name := "s", dc_id := some 2, created_at := 0, updated_at := 0 }]⟩
    "p" "s"
    { name := "s", dc_id := some 2, created_at := 0, updated_at := 0 }
    (by decide)).1 2 rfl (by decide)

/-- C4: before `load()` has completed (`isLoaded = false`), `setDC`, the
`authKey` setter and `setEntity` update only the in-memory record and
entity cache and leave the store untouched; once loaded, each one
immediately performs the full write-through `save`. -/
theorem C4_write_through (s : SessionState) (st : Store) (now : Nat)
    (d : Int) (a : String) (q : Int) (v : Option (List Nat)) (id : Nat)
    (e : Ent) :
    (s.isLoaded = false →
       V0.setDC s d a q st now = (recordDC s d a q, st) ∧
       V0.authKeySet s v st now = (recordAuthKey s v, st) ∧
       V0.setEntity s id e st now = (recordEntity s id e, st)) ∧
    (s.isLoaded = true →
       V0.setDC s d a q st now =
         ((V0.save (recordDC s d a q) st now).1,
          (V0.save (recordDC s d a q) st now).2.1) ∧
       V0.authKeySet s v st now =
         ((V0.save (recordAuthKey s v) st now).1,
          (V0.save (recordAuthKey s v) st now).2.1) ∧
       V0.setEntity s id e st now =
         ((V0.save (recordEntity s id e) st now).1,
          (V0.save (recordEntity s id e) st now).2.1)) := by
  constructor <;> intro h <;>
    simp [V0.setDC, V0.authKeySet, V0.setEntity, V0._saveToDB,
      recordDC, recordAuthKey, recordEntity, h]

/-- C4 witness: both state cases of the write-through discipline at
concrete inputs (an Unloaded fresh controller, then the same controller
marked Loaded). -/
theorem C4_write_through_witness :
    (V0.setDC (V0.mkSession "p" "s") 2 "a" 443 Store.empty 1 =
       (recordDC (V0.mkSession "p" "s") 2 "a" 443, Store.empty) ∧
     V0.authKeySet (V0.mkSession "p" "s") (some [9]) Store.empty 1 =
       (recordAuthKey (V0.mkSession "p" "s") (some [9]), Store.empty) ∧
     V0.setEntity (V0.mkSession "p" "s") 7 5 Store.empty 1 =
       (recordEntity (V0.mkSession "p" "s") 7 5, Store.empty)) ∧
    (V0.setEntity { V0.mkSession "p" "s" with isLoaded := true } 7 5
        Store.empty 1 =
      ((V0.save (recordEntity
          { V0.mkSession "p" "s" with isLoaded := true } 7 5)
          Store.empty 1).1,
       (V0.save (recordEntity
          { V0.mkSession "p" "s" with isLoaded := true } 7 5)
          Store.empty 1).2.1)) :=
  ⟨(C4_write_through (V0.mkSession "p" "s") Store.empty 1 2 "a" 443
      (some [9]) 7 5).1 rfl,
   ((C4_write_through { V0.mkSession "p" "s" with isLoaded := true }
      Store.empty 1 2 "a" 443 (some [9]) 7 5).2 rfl).2.2⟩

/-- C5: importing a parsed JSON document that lacks a numeric `dc_id`
fails with the FormatError (`Invalid session file: missing dc_id`) and
returns with the controller's in-memory state and the store exactly as
they were: the codec validates before the controller mutates anything. -/
theorem C5_import_rejects_missing_dcid (s : SessionState) (st : Store)
    (now : Nat) (d : ExportedDoc) (hdc : d.dc_id = none) :
    V0.importFromFile s (.doc d) st now = (.error .formatError, s, st) := by
  simp [V0.importFromFile, FileExportManager.importFromFile, hdc]

/-- C5 witness: the all-default document lacks `dc_id`, and importing it
into a fresh controller errors out with state and store unchanged. -/
theorem C5_import_rejects_missing_dcid_witness :
    V0.importFromFile (V0.mkSession "p" "s") (.doc {}) Store.empty 0 =
      (.error .formatError, V0.mkSession "p" "s", Store.empty) :=
  C5_import_rejects_missing_dcid (V0.mkSession "p" "s") Store.empty 0 {}
    rfl

/-- C6: a stored row whose `entities` column does not parse as JSON loads
without an error: the controller reaches the Loaded state, the entity
cache stays empty, and every other field is loaded exactly as it would be
from the same row with a null `entities` column. -/
theorem C6_malformed_entities (st stq : Store) (p n bad : String)
    (row rowq : Row)
    (hfind : DatabaseManager.loadSessionData st n = some row)
    (hent : row.entities = some (.badJson bad))
    (hfindq : DatabaseManager.loadSessionData stq n = some rowq)
    (hrowq : rowq = { row with entities := none }) :
    (V0.load (V0.mkSession p n) st).isLoaded = true ∧
    (V0.load (V0.mkSession p n) st).entitiesMap = [] ∧
    V0.load (V0.mkSession p n) st = V0.load (V0.mkSession p n) stq := by
  rw [load_fresh p n st row hfind, load_fresh p n stq rowq hfindq, hrowq]
  simp [hent]

/-- C6 witness: the spec's own example row, with `entities` set to the
string `{not json`, loads as a Loaded controller with an empty cache,
identically to the null-`entities` row. -/
theorem C6_malformed_entities_witness :
    (V0.load (V0.mkSession "p" "s")
        ⟨[{ name := "s", auth_key := some [9], dc_id := some 2,
            entities := some (.badJson "\x7bnot json"), created_at := 0,
            updated_at := 0 }]⟩).isLoaded = true ∧
    (V0.load (V0.mkSession "p" "s")
        ⟨[{ name := "s", auth_key := some [9], dc_id := some 2,
            entities := some (.badJson "\x7bnot json"), created_at := 0,
            updated_at := 0 }]⟩).entitiesMap = [] ∧
    V0.load (V0.mkSession "p" "s")
        ⟨[{ name := "s", auth_key := some [9], dc_id := some 2,
            entities := some (.badJson "\x7bnot json"), created_at := 0,
            updated_at := 0 }]⟩ =
      V0.load (V0.mkSession "p" "s")
        ⟨[{ name := "s", auth_key := some [9], dc_id := some 2,
            entities := none, created_at := 0, updated_at := 0 }]⟩ := by
  exact C6_malformed_entities
    ⟨[{ name := "s", auth_key := some [9], dc_id := some 2,
        entities := some (.badJson "\x7bnot json"), created_at := 0,
        updated_at := 0 }]⟩
    ⟨[{ name := "s", auth_key := some [9], dc_id := some 2,
        entities := none, created_at := 0, updated_at := 0 }]⟩
    "p" "s" "\x7bnot json"
    { name := "s", auth_key := some [9], dc_id := some 2,
      entities := some (.badJson "\x7bnot json"), created_at := 0,
      updated_at := 0 }
    { name := "s", auth_key := some [9], dc_id := some 2,
      entities := none, created_at := 0, updated_at := 0 }
    (by decide) rfl (by decide) rfl

/-- C7 counterexample: an in-memory `serverAddress = ""` is persisted as
a NULL column, but a fresh `load` of a row whose `dc_id` is truthy
defaults the null address back to `""`, so that falsy value IS reproduced
by the round trip, contrary to the claim's final clause. -/
theorem C7_empty_address_counterexample :
    (DatabaseManager.loadSessionData
        (V0.save
          { databasePath := "p", sessionName := "s",
            sessionData := { dcId := some 2, serverAddress := some "", port := some 443 } } Store.empty 1).2.1
        "s").map Row.server_address = some none ∧
    ({ databasePath := "p", sessionName := "s",
       sessionData := { dcId := some 2, serverAddress := some "", port := some 443 } }
      : SessionState).sessionData.serverAddress = some "" ∧
    (V0.load (V0.mkSession "p" "s")
        (V0.save
          { databasePath := "p", sessionName := "s",
            sessionData := { dcId := some 2, serverAddress := some "", port := some 443 } } Store.empty 1).2.1
      ).sessionData.serverAddress = some "" := by
  decide

/-- C7 (amended): `save` persists an empty entity cache and falsy scalar
fields (`dcId = 0`, `port = 0`, `serverAddress = ""`) as NULL columns; a
zero `dcId` and a zero `port` are consequently never reproduced by a
fresh `load`, while an empty `serverAddress` comes back as `""` whenever
the stored `dc_id` is truthy and as unset otherwise. -/
theorem C7_falsy_persisted_as_null (s : SessionState) (st : Store)
    (now : Nat) :
    (s.entitiesMap = [] →
       (DatabaseManager.loadSessionData (V0.save s st now).2.1
           s.sessionName).map Row.entities = some none) ∧
    (s.sessionData.dcId = some 0 →
       (DatabaseManager.loadSessionData (V0.save s st now).2.1
           s.sessionName).map Row.dc_id = some none ∧
       (V0.load (V0.mkSession s.databasePath s.sessionName)
           (V0.save s st now).2.1).sessionData.dcId = none) ∧
    (s.sessionData.port = some 0 →
       (DatabaseManager.loadSessionData (V0.save s st now).2.1
           s.sessionName).map Row.port = some none ∧
       (V0.load (V0.mkSession s.databasePath s.sessionName)
           (V0.save s st now).2.1).sessionData.port ≠ some 0) ∧
    (s.sessionData.serverAddress = some "" →
       (DatabaseManager.loadSessionData (V0.save s st now).2.1
           s.sessionName).map Row.server_address = some none ∧
       (numOrNull s.sessionData.dcId = none →
          (V0.load (V0.mkSession s.databasePath s.sessionName)
              (V0.save s st now).2.1).sessionData.serverAddress = none) ∧
       (∀ dv : Int, numOrNull s.sessionData.dcId = some dv →
          (V0.load (V0.mkSession s.databasePath s.sessionName)
              (V0.save s st now).2.1).sessionData.serverAddress =
            some "")) := by
  have hsave : (V0.save s st now).2.1 =
      DatabaseManager.saveSessionData st s.sessionName
        { authKey := s.sessionData.authKey
          dcId := numOrNull s.sessionData.dcId
          serverAddress := strOrNull s.sessionData.serverAddress
          port := numOrNull s.sessionData.port
          entities := if 0 < s.entitiesMap.length
            then some (.json s.entitiesMap) else none } now := by
    simp [V0.save]
  rw [hsave,
    load_fresh s.databasePath s.sessionName _ _
      (loadSessionData_saveSessionData st s.sessionName _ now),
    loadSessionData_saveSessionData st s.sessionName _ now]
  refine ⟨?_, ?_, ?_, ?_⟩
  · intro h
    simp [h]
  · intro h
    simp [h, numOrNull]
  · intro h
    rcases hdc : numOrNull s.sessionData.dcId with _ | dv
    · simp [h, numOrNull, hdc]
    · have hdz := (numOrNull_eq_some _ _ hdc).2
      simp [h, numOrNull, hdc, hdz, jsOrNum]
  · intro h
    refine ⟨by simp [h, strOrNull], ?_, ?_⟩
    · intro hdc
      simp [hdc]
    · intro dv hdc
      have hdz := (numOrNull_eq_some _ _ hdc).2
      simp [h, hdc, hdz, strOrNull, jsOrStr]

/-- C7 witness: a record with an empty cache, `dcId = 0`, `port = 0` and
`serverAddress = ""` persists all four as NULL, and the zero `dcId` and
`port` are not reproduced by a fresh load. -/
theorem C7_falsy_persisted_as_null_witness :
    ((DatabaseManager.loadSessionData
        (V0.save
          { databasePath := "p", sessionName := "s",
            sessionData := { dcId := some 0, serverAddress := some "", port := some 0 } } Store.empty 1).2.1
        "s").map Row.dc_id = some none ∧
     (V0.load (V0.mkSession "p" "s")
        (V0.save
          { databasePath := "p", sessionName := "s",
            sessionData := { dcId := some 0, serverAddress := some "", port := some 0 } } Store.empty 1).2.1
       ).sessionData.dcId = none) ∧
    ((DatabaseManager.loadSessionData
        (V0.save
          { databasePath := "p", sessionName := "s",
            sessionData := { dcId := some 0, serverAddress := some "", port := some 0 } } Store.empty 1).2.1
        "s").map Row.port = some none ∧
     (V0.load (V0.mkSession "p" "s")
        (V0.save
          { databasePath := "p", sessionName := "s",
            sessionData := { dcId := some 0, serverAddress := some "", port := some 0 } } Store.empty 1).2.1
       ).sessionData.port ≠ some 0) ∧
    (DatabaseManager.loadSessionData
        (V0.save
          { databasePath := "p", sessionName := "s",
            sessionData := { dcId := some 0, serverAddress := some "", port := some 0 } } Store.empty 1).2.1
        "s").map Row.entities = some none :=
  ⟨((C7_falsy_persisted_as_null
      { databasePath := "p", sessionName := "s",
        sessionData := { dcId := some 0, serverAddress := some "", port := some 0 } } Store.empty 1).2.1 rfl),
   ((C7_falsy_persisted_as_null
      { databasePath := "p", sessionName := "s",
        sessionData := { dcId := some 0, serverAddress := some "", port := some 0 } } Store.empty 1).2.2.1 rfl),
   ((C7_falsy_persisted_as_null
      { databasePath := "p", sessionName := "s",
        sessionData := { dcId := some 0, serverAddress := some "", port := some 0 } } Store.empty 1).1 rfl)⟩

/-- C8: three sessions saved under distinct names at strictly increasing
times come back from `listSessions` ordered by creation time descending:
newest first. -/
theorem C8_listSessions_desc (n1 n2 n3 : String) (d1 d2 d3 : SaveData)
    (t1 t2 t3 : Nat) (h12 : t1 < t2) (h23 : t2 < t3)
    (hn12 : n1 ≠ n2) (hn13 : n1 ≠ n3) (hn23 : n2 ≠ n3) :
    DatabaseManager.listSessions
        (DatabaseManager.saveSessionData
          (DatabaseManager.saveSessionData
            (DatabaseManager.saveSessionData Store.empty n1 d1 t1)
            n2 d2 t2)
          n3 d3 t3) =
      [⟨n3, t3, t3⟩, ⟨n2, t2, t2⟩, ⟨n1, t1, t1⟩] := by
  have h13 : t1 < t3 := lt_trans h12 h23
  have e12 : (n1 == n2) = false := beq_eq_false_iff_ne.mpr hn12
  have e13 : (n1 == n3) = false := beq_eq_false_iff_ne.mpr hn13
  have e23 : (n2 == n3) = false := beq_eq_false_iff_ne.mpr hn23
  simp [DatabaseManager.saveSessionData, Store.empty,
    DatabaseManager.listSessions, DatabaseManager.sortByCreatedDesc,
    DatabaseManager.insertByCreatedDesc, List.filter, e12, e13, e23,
    not_le.mpr h12, not_le.mpr h23, not_le.mpr h13]

/-- C8 witness: three concrete sessions saved at times 1 < 2 < 3 are
listed newest first. -/
theorem C8_listSessions_desc_witness :
    DatabaseManager.listSessions
        (DatabaseManager.saveSessionData
          (DatabaseManager.saveSessionData
            (DatabaseManager.saveSessionData Store.empty "a"
              { authKey := none, dcId := none, serverAddress := none,
                port := none, entities := none } 1)
            "b"
            { authKey := none, dcId := none, serverAddress := none,
              port := none, entities := none } 2)
          "c"
          { authKey := none, dcId := none, serverAddress := none,
            port := none, entities := none } 3) =
      [⟨"c", 3, 3⟩, ⟨"b", 2, 2⟩, ⟨"a", 1, 1⟩] :=
  C8_listSessions_desc "a" "b" "c" _ _ _ 1 2 3 (by decide) (by decide)
    (by decide) (by decide) (by decide)

/-- C9: `getEntityId` is an identity lookup — after storing an object
reference under id 7 in an empty cache, looking up the same reference
returns 7, while a structurally identical (`content`-equal) but distinct
reference is not found. -/
theorem C9_identity_lookup (content : Ent → Nat) (o oq : Ent)
    (hne : o ≠ oq) (_hstruct : content o = content oq) :
    ExtendedMemorySession.getEntityId (mapSet [] 7 o) o = some 7 ∧
    ExtendedMemorySession.getEntityId (mapSet [] 7 o) oq = none := by
  constructor
  · simp [ExtendedMemorySession.getEntityId, mapSet]
  · simp [ExtendedMemorySession.getEntityId, mapSet, hne]

/-- C9 witness: references 0 and 1 with identical structural content. -/
theorem C9_identity_lookup_witness :
    ExtendedMemorySession.getEntityId (mapSet [] 7 0) 0 = some 7 ∧
    ExtendedMemorySession.getEntityId (mapSet [] 7 0) 1 = none :=
  C9_identity_lookup (fun _ => 0) 0 1 (by decide) rfl

/-- C10: the two `SqliteSession` class definitions are behaviorally
equivalent — every public operation (constructor, load, save, setDC, the
authKey accessors, setEntity, exportToFile, importFromFile, delete,
close, getSessionInfo and the four static registry methods) agrees on
every state, store and input. -/
theorem C10_two_definitions_equivalent :
    (∀ p n, V0.mkSession p n = V1.mkSession p n) ∧
    (∀ s st, V0.load s st = V1.load s st) ∧
    (∀ s st now, V0.save s st now = V1.save s st now) ∧
    (∀ s d a q st now, V0.setDC s d a q st now = V1.setDC s d a q st now) ∧
    (∀ s, V0.authKeyGet s = V1.authKeyGet s) ∧
    (∀ s v st now, V0.authKeySet s v st now = V1.authKeySet s v st now) ∧
    (∀ s id e st now,
       V0.setEntity s id e st now = V1.setEntity s id e st now) ∧
    (∀ s f now, V0.exportToFile s f now = V1.exportToFile s f now) ∧
    (∀ s file st now,
       V0.importFromFile s file st now = V1.importFromFile s file st now) ∧
    (∀ s st, V0.delete s st = V1.delete s st) ∧
    (∀ s, V0.close s = V1.close s) ∧
    (∀ s, V0.getSessionInfo s = V1.getSessionInfo s) ∧
    V0.listSessions = V1.listSessions ∧
    V0.deleteSession = V1.deleteSession ∧
    V0.sessionExists = V1.sessionExists ∧
    V0.getSessionInfoStatic = V1.getSessionInfoStatic :=
  ⟨fun _ _ => rfl, fun _ _ => rfl, fun _ _ _ => rfl,
   fun _ _ _ _ _ _ => rfl, fun _ => rfl, fun _ _ _ _ => rfl,
   fun _ _ _ _ _ => rfl, fun _ _ _ => rfl, fun _ _ _ _ => rfl,
   fun _ _ => rfl, fun _ => rfl, fun _ => rfl, rfl, rfl, rfl, rfl⟩

end GramjsSqlite
